import Mathlib

set_option linter.unusedVariables false

/-!
Shallow embedding of the ingestion core of the iRail Azure Function
(`src/azure_function/function_app.py`): the JSON value model, the field
normalization performed by `DatabaseManager.insert_departures` and
`DatabaseManager.insert_stations`, the connection resolver
`DatabaseManager.get_connection`, and the batch collector
`manual_data_collection`.

Database effects (cursor.execute submissions, commits, audit-log rows) are
modelled as explicit effect logs; wall-clock instants are modelled as integer
epoch seconds; external outcomes (feed responses, driver results) are supplied
by explicit environments.
-/

/-- Tagged union for the dynamic JSON payloads the feed returns.  Mappings are
association lists (first binding wins, as a Python dict has unique keys). -/
inductive JValue where
  | str (s : String)
  | num (n : Int)
  | bool (b : Bool)
  | null
  | arr (items : List JValue)
  | obj (fields : List (String × JValue))

/-- Python truthiness (`if x:`): empty string, zero, False, None, empty list
and empty dict are falsy; everything else is truthy. -/
def JValue.truthy : JValue → Bool
  | .str s => !s.isEmpty
  | .num n => n != 0
  | .bool b => b
  | .null => false
  | .arr xs => !xs.isEmpty
  | .obj fs => !fs.isEmpty

/-- `isinstance(x, dict)`. -/
def JValue.isObj : JValue → Bool
  | .obj _ => true
  | _ => false

/-- Key lookup on a mapping, `none` when the value is not a mapping or the key
is absent. -/
def objLookup (v : JValue) (k : String) : Option JValue :=
  match v with
  | .obj fs => fs.lookup k
  | _ => none

/-- Python `d.get(k, dflt)`.  Every call site in the embedded code is guarded
by an `isinstance(..., dict)` check in the source (or the source has already
raised on a non-dict), so returning the default on a non-mapping receiver is
observationally equivalent there. -/
def dget (v : JValue) (k : String) (dflt : JValue) : JValue :=
  (objLookup v k).getD dflt

/-- Strip leading and trailing whitespace from a character list. -/
def stripWs (cs : List Char) : List Char :=
  ((cs.dropWhile Char.isWhitespace).reverse.dropWhile Char.isWhitespace).reverse

/-- Python `int(s)` on a string: optional surrounding whitespace, optional
sign, then decimal digits; `none` models `ValueError`. -/
def parseIntStr (s : String) : Option Int :=
  match stripWs s.data with
  | [] => none
  | c :: rest =>
    let neg := c = '-'
    let core := if c = '-' || c = '+' then rest else c :: rest
    if core.isEmpty then none
    else if core.all Char.isDigit then
      let n : Nat := core.foldl (fun acc ch => acc * 10 + (ch.toNat - 48)) 0
      some (if neg then -(n : Int) else (n : Int))
    else none

/-- Python `int(x)`: ints pass through, bools coerce to 0/1, numeric strings
parse, and everything else raises (`none` models the raised
`ValueError`/`TypeError`, which the embedded call sites catch). -/
def pyInt? : JValue → Option Int
  | .num n => some n
  | .bool b => some (if b then 1 else 0)
  | .str s => parseIntStr s
  | _ => none

/-- Python `len(x)`: defined for strings, lists and dicts; `TypeError`
(modelled as `Except.error`) for ints, bools and None. -/
def pyLen : JValue → Except String Nat
  | .str s => .ok s.length
  | .arr xs => .ok xs.length
  | .obj fs => .ok fs.length
  | _ => .error "TypeError: object has no len()"

/-- The single-quote character, used by the Python repr rendering. -/
def pyQuote : String := String.singleton (Char.ofNat 39)

mutual
/-- Python `repr(x)` for the JSON value model (strings in single quotes,
True/False/None spelled as in Python). -/
def pyRepr : JValue → String
  | .str s => pyQuote ++ s ++ pyQuote
  | .num n => toString n
  | .bool true => "True"
  | .bool false => "False"
  | .null => "None"
  | .arr xs => "[" ++ pyReprList xs ++ "]"
  | .obj fs => "\x7b" ++ pyReprFields fs ++ "\x7d"

def pyReprList : List JValue → String
  | [] => ""
  | [x] => pyRepr x
  | x :: rest => pyRepr x ++ ", " ++ pyReprList rest

def pyReprFields : List (String × JValue) → String
  | [] => ""
  | [(k, v)] => pyQuote ++ k ++ pyQuote ++ ": " ++ pyRepr v
  | (k, v) :: rest => pyQuote ++ k ++ pyQuote ++ ": " ++ pyRepr v ++ ", " ++ pyReprFields rest
end

/-- Python `str(x)`: identity on strings, repr-like rendering otherwise. -/
def pyStr : JValue → String
  | .str s => s
  | v => pyRepr v

/-- One row submitted to `cursor.execute` against the departures table
(the tuple of `insert_sql` parameters in `insert_departures`). -/
structure DepartureRow where
  station_uri : JValue
  station_name : JValue
  vehicle_uri : JValue
  vehicle_name : JValue
  platform : String
  scheduled_time : Option Int
  actual_time : Option Int
  delay_seconds : Int
  is_canceled : Bool
  departure_connection : String
  occupancy_level : Option String

/-- First-pass epoch extraction (lines 411-416):
`timestamp = int(time_val) if time_val else 0` inside a bare `try`, so any
parse failure yields 0. -/
def v1Timestamp (d : JValue) : Int :=
  let t := dget d "time" (.num 0)
  if t.truthy then (pyInt? t).getD 0 else 0

/-- First-pass delay extraction (lines 421-425), same defaulting pattern. -/
def v1Delay (d : JValue) : Int :=
  let dl := dget d "delay" (.num 0)
  if dl.truthy then (pyInt? dl).getD 0 else 0

/-- Second-pass epoch extraction (lines 527-530):
`int(departure.get('time', 0))` with `(ValueError, TypeError)` caught to 0. -/
def v2Timestamp (d : JValue) : Int :=
  (pyInt? (dget d "time" (.num 0))).getD 0

/-- Second-pass delay extraction (lines 534-537). -/
def v2Delay (d : JValue) : Int :=
  (pyInt? (dget d "delay" (.num 0))).getD 0

/-- `datetime.fromtimestamp(ts, tz=utc) if ts else None`: the stored scheduled
instant, as epoch seconds (instants are modelled as unbounded integers). -/
def schedOf (ts : Int) : Option Int :=
  if ts ≠ 0 then some ts else none

/-- `datetime.fromtimestamp(ts + delay, tz=utc) if ts else None`. -/
def actualOf (ts delay : Int) : Option Int :=
  if ts ≠ 0 then some (ts + delay) else none

/-- `departure.get('canceled', '0') == '1'` — Python equality against the
string literal, which only a string value can satisfy. -/
def canceledOf (d : JValue) : Bool :=
  match dget d "canceled" (.str "0") with
  | .str s => s = "1"
  | _ => false

/-- First-pass row extraction (lines 404-434): the raw `vehicle` field is read
as a mapping, platform/time/delay/canceled defensively coerced, and occupancy
is passed as the literal None. -/
def mkV1Row (su sn d : JValue) : DepartureRow :=
  let vehicle := dget d "vehicle" (.obj [])
  let ts := v1Timestamp d
  let delay := v1Delay d
  { station_uri := su
    station_name := sn
    vehicle_uri := if vehicle.isObj then dget vehicle "@id" (.str "") else .str ""
    vehicle_name := if vehicle.isObj then dget vehicle "name" (.str "") else .str ""
    platform := pyStr (dget d "platform" (.str ""))
    scheduled_time := schedOf ts
    actual_time := actualOf ts delay
    delay_seconds := delay
    is_canceled := canceledOf d
    departure_connection := pyStr (dget d "departureConnection" (.str ""))
    occupancy_level := none }

/-- First-pass per-departure step (lines 399-440): non-mapping items are
skipped (`continue`), mapping items always yield a row. -/
def extractV1 (su sn d : JValue) : Option DepartureRow :=
  match d with
  | .obj _ => some (mkV1Row su sn d)
  | _ => none

/-- Second-pass vehicle naming (lines 508-518): the `or` chain
`vehicleinfo.get('shortname') or vehicleinfo.get('name') or vehicle_raw`,
falling back to the raw `vehicle` value (default the empty string) when
`vehicleinfo` is missing or not a mapping. -/
def v2VehicleName (d : JValue) : JValue :=
  let vehicle_raw := dget d "vehicle" (.str "")
  let vehicle_info := dget d "vehicleinfo" (.obj [])
  if vehicle_info.isObj then
    let s := dget vehicle_info "shortname" .null
    if s.truthy then s
    else
      let n := dget vehicle_info "name" .null
      if n.truthy then n else vehicle_raw
  else vehicle_raw

/-- Second-pass vehicle URI (lines 513-518). -/
def v2VehicleUri (d : JValue) : JValue :=
  let vehicle_info := dget d "vehicleinfo" (.obj [])
  if vehicle_info.isObj then dget vehicle_info "@id" (.str "") else .str ""

/-- `occupancy_id.split('/')[-1]`: everything after the last slash (the whole
string when it has no slash). -/
def lastPathSeg (s : String) : String :=
  String.mk ((s.data.reverse.takeWhile (fun c => !(c = '/'))).reverse)

/-- Second-pass occupancy extraction (lines 547-552).  When the occupancy
`@id` is truthy but not a string, `occupancy_id.split('/')[-1]` raises
`AttributeError`, which the per-departure handler turns into a skip
(`Except.error`). -/
def occLevel? (occupancy : JValue) : Except String (Option String) :=
  if occupancy.isObj then
    let oid := dget occupancy "@id" (.str "")
    if oid.truthy then
      match oid with
      | .str s => .ok (some (lastPathSeg s))
      | _ => .error "AttributeError: split"
    else .ok none
  else .ok none

/-- Second-pass row extraction (lines 506-556). -/
def mkV2Row (su sn d : JValue) (lvl : Option String) : DepartureRow :=
  let ts := v2Timestamp d
  let delay := v2Delay d
  { station_uri := su
    station_name := sn
    vehicle_uri := v2VehicleUri d
    vehicle_name := v2VehicleName d
    platform := if (dget d "platform" .null).truthy then pyStr (dget d "platform" (.str "")) else ""
    scheduled_time := schedOf ts
    actual_time := actualOf ts delay
    delay_seconds := delay
    is_canceled := canceledOf d
    departure_connection :=
      if (dget d "departureConnection" .null).truthy then pyStr (dget d "departureConnection" (.str "")) else ""
    occupancy_level := lvl }

/-- Second-pass per-departure step (lines 493-562): non-mapping items and
items whose occupancy extraction raises are skipped. -/
def extractV2 (su sn d : JValue) : Option DepartureRow :=
  match d with
  | .obj _ =>
    match occLevel? (dget d "occupancy" (.obj [])) with
    | .error _ => none
    | .ok lvl => some (mkV2Row su sn d lvl)
  | _ => none

/-- The observable effect of one `insert_departures` call: the rows submitted
to `cursor.execute` in order, the number of `conn.commit()` calls, and the
Python return value (every return in the source is a bare `return`, and the
function also falls off the end, so the value is always None). -/
structure InsertResult where
  submitted : List DepartureRow
  commits : Nat
  retval : Option Nat

/-- The station section extracted at lines 384-387 and 474-481. -/
def stationCtx (lb : JValue) : JValue :=
  dget lb "station" (.obj [])

/-- The station URI both passes compute (lines 386 and 477-480). -/
def stationUriOf (lb : JValue) : JValue :=
  if (stationCtx lb).isObj then dget (stationCtx lb) "@id" (.str "") else .str ""

/-- The first-pass station name (line 387). -/
def stationName1Of (lb : JValue) : JValue :=
  if (stationCtx lb).isObj then dget (stationCtx lb) "name" (.str "") else .str ""

/-- The second-pass station name (lines 476-481): a non-mapping station
section is rendered with `str`, or replaced by the literal Unknown Station
when falsy. -/
def stationName2Of (lb : JValue) : JValue :=
  if (stationCtx lb).isObj then dget (stationCtx lb) "name" (.str "")
  else .str (if (stationCtx lb).truthy then pyStr (stationCtx lb) else "Unknown Station")

/-- `DatabaseManager.insert_departures` (lines 367-565).  The body contains
two complete extraction-and-insert passes: the first (lines 369-447) commits
and, when it does not early-return or raise, control falls through the stray
string literal at line 448 into the second pass (lines 449-565), which
re-extracts the same payload and commits again.  A non-mapping payload raises
(`.get` on a non-dict raises AttributeError, re-raised at line 447).
Database connections and statement executions are assumed to succeed; the
submitted rows are logged instead of being sent to a store. -/
def insert_departures (lb : JValue) : Except String InsertResult :=
  if !lb.isObj then .error "AttributeError: get" else
  -- PASS 1 (simplified variant)
  let ds := dget lb "departures" (.obj [])
  if !ds.truthy || !ds.isObj then .ok ⟨[], 0, none⟩ else
  let deps0 := dget ds "departure" (.arr [])
  if !deps0.truthy then .ok ⟨[], 0, none⟩ else
  let deps1 : List JValue := match deps0 with | .arr xs => xs | v => [v]
  let rows1 := deps1.filterMap (extractV1 (stationUriOf lb) (stationName1Of lb))
  -- commit #1, then fall through the stray docstring into PASS 2
  let ds2 := dget lb "departures" .null
  if !ds2.truthy then .ok ⟨rows1, 1, none⟩ else
  if !ds2.isObj then .ok ⟨rows1, 1, none⟩ else
  let deps2raw := dget ds2 "departure" (.arr [])
  let deps2 : List JValue :=
    match deps2raw with
    | .arr xs => xs
    | v => if v.truthy then [v] else []
  if deps2.isEmpty then .ok ⟨rows1, 1, none⟩ else
  let rows2 := deps2.filterMap (extractV2 (stationUriOf lb) (stationName2Of lb))
  .ok ⟨rows1 ++ rows2, 2, none⟩

/-- A liveboard payload with the given station section and departure list, the
shape the feed returns and the scenarios in the spec use. -/
def mkLiveboard (station : JValue) (deps : List JValue) : JValue :=
  .obj [("departures", .obj [("departure", .arr deps)]), ("station", station)]

/-- One row submitted to the station MERGE statement in
`DatabaseManager.insert_stations` (lines 335-363). -/
structure StationRow where
  id : String
  name : JValue
  standardname : JValue
  locationX : JValue
  locationY : JValue
  uri : JValue

/-- The digit run at the end of a character list. -/
def digitSuffix (cs : List Char) : List Char :=
  (cs.reverse.takeWhile Char.isDigit).reverse

/-- `re.search(r'/(\d+)$', uri)` followed by `match.group(1)` (lines 330-333):
the trailing digit segment of the URI when it is directly preceded by a slash,
otherwise the identifier stays empty. -/
def extractStationId (s : String) : String :=
  let ds := digitSuffix s.data
  if ds.isEmpty then ""
  else
    let pre := s.data.take (s.data.length - ds.length)
    match pre.getLast? with
    | some c => if c = '/' then String.mk ds else ""
    | none => ""

/-- The processed row built at lines 335-343. -/
def stationRowOf (st uri : JValue) (sid : String) : StationRow :=
  { id := sid
    name := dget st "name" (.str "")
    standardname := dget st "standardname" (.str "")
    locationX := dget st "locationX" .null
    locationY := dget st "locationY" .null
    uri := uri }

/-- Processing of one raw station record (lines 325-343): the `@id` URI is
read (default empty string), the identifier extracted from it when it is a
truthy string (`re.search` on a truthy non-string raises TypeError, which
nothing catches), and a row is built for the MERGE regardless of whether an
identifier was found.  A non-mapping record raises at `.get`. -/
def processStationRecord (st : JValue) : Except String StationRow :=
  match st with
  | .obj _ =>
    let uri := dget st "@id" (.str "")
    let idResult : Except String String :=
      if uri.truthy then
        match uri with
        | .str s => .ok (extractStationId s)
        | _ => .error "TypeError: expected string or bytes-like object"
      else .ok ""
    match idResult with
    | .error e => .error e
    | .ok sid => .ok (stationRowOf st uri sid)
  | _ => .error "AttributeError: get"

/-- `DatabaseManager.insert_stations` (lines 320-365): every record is
processed into a row and every row is submitted to the MERGE (one
`cursor.execute` per record, one commit at the end); no record is dropped. -/
def insert_stations : List JValue → Except String (List StationRow)
  | [] => .ok []
  | st :: rest =>
    match processStationRecord st with
    | .error e => .error e
    | .ok row =>
      match insert_stations rest with
      | .error e => .error e
      | .ok rows => .ok (row :: rows)

/-- Environment for `DatabaseManager.get_connection`: driver availability and
the outcome of `pyodbc.connect` on each candidate connection string (a handle
is an opaque number). -/
structure ConnEnv where
  pyodbcAvailable : Bool
  drivers : List String
  sqlServer : String
  sqlDatabase : String
  sqlUsername : String
  sqlPassword : String
  connect : String → Except String Nat

/-- Left-to-right non-overlapping replacement over character lists, driven by
a fuel counter bounding the scan length. -/
def replaceAux (pat rep : List Char) : Nat → List Char → List Char
  | _, [] => []
  | 0, cs => cs
  | fuel + 1, c :: rest =>
    if pat.isPrefixOf (c :: rest) then
      rep ++ replaceAux pat rep fuel ((c :: rest).drop pat.length)
    else c :: replaceAux pat rep fuel rest

/-- Python `s.replace(pat, rep)` for a non-empty pattern (every call site uses
a fixed non-empty driver pattern). -/
def pyReplace (s pat rep : String) : String :=
  String.mk (replaceAux pat.data rep.data s.data.length s.data)

/-- The ordered candidate connection strings built in
`DatabaseManager.get_connection` (lines 195-216): the original string, the
ODBC-17 variant when that driver is available, the FreeTDS variant, and the
simplified string assembled from the SQL_* environment variables. -/
def connectionAttempts (cs : String) (env : ConnEnv) : List String :=
  [cs]
  ++ (if "ODBC Driver 17 for SQL Server" ∈ env.drivers then
        [pyReplace cs "Driver=\x7bODBC Driver 18 for SQL Server\x7d"
                      "Driver=\x7bODBC Driver 17 for SQL Server\x7d"]
      else [])
  ++ [pyReplace cs "Driver=\x7bODBC Driver 18 for SQL Server\x7d" "Driver=\x7bFreeTDS\x7d"]
  ++ ["DRIVER=\x7bODBC Driver 18 for SQL Server\x7d;SERVER=" ++ env.sqlServer
      ++ ";DATABASE=" ++ env.sqlDatabase ++ ";UID=" ++ env.sqlUsername
      ++ ";PWD=" ++ env.sqlPassword
      ++ ";Encrypt=yes;TrustServerCertificate=no;Authentication=SqlPassword;Connection Timeout=30;"]

/-- The per-attempt error message appended at line 225. -/
def attemptErrMsg (i : Nat) (e : String) : String :=
  "pyodbc attempt #" ++ toString (i + 1) ++ " failed: " ++ e

/-- The aggregated failure raised at line 239. -/
def connFailMsg (errors : List String) : String :=
  "Database connection failed. Errors: " ++ String.intercalate "; " errors

/-- The attempt loop of `get_connection` (lines 218-227): try each candidate
in order, return the handle on the first success, otherwise append the
indexed error message and continue.  The second component records which
candidates were actually attempted. -/
def connAttemptLoop (env : ConnEnv) :
    List String → Nat → List String → List String → Except String Nat × List String
  | [], _, errors, tried => (.error (connFailMsg errors), tried)
  | a :: rest, i, errors, tried =>
    match env.connect a with
    | .ok h => (.ok h, tried ++ [a])
    | .error e => connAttemptLoop env rest (i + 1) (errors ++ [attemptErrMsg i e]) (tried ++ [a])

/-- `DatabaseManager.get_connection` (lines 179-239), returning the result
together with the list of attempted connection strings. -/
def get_connection (cs : String) (env : ConnEnv) : Except String Nat × List String :=
  if env.pyodbcAvailable then
    connAttemptLoop env (connectionAttempts cs env) 0 [] []
  else
    (.error (connFailMsg ["pyodbc not available - install pyodbc package"]), [])

/-- The expected enumerated error list when every attempt from index `i` on
fails: one entry per attempted strategy, carrying that attempt number and the
individual failure reason reported by the driver. -/
def enumMsgs (env : ConnEnv) (i : Nat) : List String → List String
  | [] => []
  | a :: rest =>
    (match env.connect a with
     | .error e => attemptErrMsg i e
     | .ok _ => "") :: enumMsgs env (i + 1) rest

/-- One audit-row update submitted through
`DatabaseManager.update_data_factory_log` (execution duration, a wall-clock
quantity, is not modelled). -/
structure AuditUpdate where
  status : String
  stationsProcessed : Nat
  departuresCollected : Nat
  errorMessage : Option String

/-- The HTTP request reaching `manual_data_collection`. -/
structure HttpReq where
  method : String
  body : String
  userAgent : String

/-- Environment of one collection run: whether the database manager exists,
whether `log_data_factory_trigger` produced an id, whether
`initialize_tables` succeeds, the JSON body parser, the per-station feed
outcome, and runtime database failures during an insert (connection loss or
constraint violations, which the source catches per station as a DB error). -/
structure CollectEnv where
  dbAvailable : Bool
  logId : Option Nat
  initOk : Bool
  jsonParse : String → Option JValue
  feed : String → Except String JValue
  dbInsertFails : String → Option String

/-- `if log_id:` — the id returned by `log_data_factory_trigger` is truthy. -/
def logTruthy (env : CollectEnv) : Bool :=
  match env.logId with
  | some n => n != 0
  | none => false

/-- The departures value the collector loop computes at lines 1687-1692. -/
def departuresOf (lb : JValue) : JValue :=
  let ds := dget lb "departures" (.obj [])
  if ds.isObj then dget ds "departure" (.arr []) else .arr []

/-- The station name the collector loop computes at lines 1694-1698
(rendered by the f-strings that consume it). -/
def collStationName (sid : String) (lb : JValue) : String :=
  let sec := dget lb "station" (.obj [])
  if sec.isObj then
    match objLookup sec "name" with
    | some v => pyStr v
    | none => sid
  else if sec.truthy then pyStr sec else sid

/-- Accumulator of the per-station loop of `manual_data_collection`. -/
structure LoopAcc where
  successful : Nat
  failed : List String
  total : Nat
  sleeps : Nat
  feedCalls : List String
  insertCalls : List String

/-- Whether the iteration for one station raises out of its own work and is
caught by the per-station handler at line 1768: the feed call fails, the
payload is not a mapping (ValueError at line 1685), or `len(departures)` in
the logging at line 1700 raises TypeError. -/
def stationRaises (env : CollectEnv) (sid : String) : Bool :=
  match env.feed sid with
  | .error _ => true
  | .ok lb =>
    if !lb.isObj then true
    else
      match pyLen (departuresOf lb) with
      | .error _ => true
      | .ok _ => false

/-- One iteration of the station loop (lines 1673-1781).  The success path
increments the counters and sleeps; the DB-error and no-data paths also reach
the `time.sleep(0.4)` at line 1766; the exception path appends the API-error
label and `continue`s without sleeping. -/
def processStation (env : CollectEnv) (acc0 : LoopAcc) (sid : String) : LoopAcc :=
  let acc := { acc0 with feedCalls := acc0.feedCalls ++ [sid] }
  match env.feed sid with
  | .error _ => { acc with failed := acc.failed ++ [sid ++ " (API error)"] }
  | .ok lb =>
    if !lb.isObj then { acc with failed := acc.failed ++ [sid ++ " (API error)"] }
    else
      match pyLen (departuresOf lb) with
      | .error _ => { acc with failed := acc.failed ++ [sid ++ " (API error)"] }
      | .ok n =>
        let name := collStationName sid lb
        if (departuresOf lb).truthy then
          let acc := { acc with insertCalls := acc.insertCalls ++ [sid] }
          match env.dbInsertFails sid with
          | some _ =>
            { acc with failed := acc.failed ++ [name ++ " (DB error)"], sleeps := acc.sleeps + 1 }
          | none =>
            match insert_departures lb with
            | .ok _ =>
              { acc with successful := acc.successful + 1, total := acc.total + n,
                         sleeps := acc.sleeps + 1 }
            | .error _ =>
              { acc with failed := acc.failed ++ [name ++ " (DB error)"], sleeps := acc.sleeps + 1 }
        else
          { acc with sleeps := acc.sleeps + 1 }

/-- The observable outcome of one collection run. -/
structure RunReport where
  auditCreated : Bool
  feedCalls : List String
  insertCalls : List String
  sleeps : Nat
  auditUpdates : List AuditUpdate
  httpStatus : Nat
  bodyStatus : String
  successfulStations : Nat
  failedStations : List String
  totalDepartures : Nat

/-- The partial-success error message built at line 1863. -/
def partialMsg (failed : List String) : String :=
  toString failed.length ++ " stations failed: " ++ String.intercalate ", " failed

/-- The body of `manual_data_collection` (lines 1559-1911), parametrised over
the station list it iterates (the source fixes it to `majorStations` below).
An audit row is created at the start with status started when the database is
available and the insert returns an id; the request body is parsed into
configuration parameters that the rest of the function never consumes; after
the loop the audit row is first updated with status success (line 1816) and
then, depending on the counters, updated again with failed or partial_success
(lines 1829-1872).  An initialization failure returns before the loop without
touching the audit row (lines 1650-1665). -/
def collectRun (stations : List String) (env : CollectEnv) (req : HttpReq) : RunReport :=
  let auditCreated := env.dbAvailable && env.logId.isSome
  let config_params : JValue :=
    if req.method == "POST" then (env.jsonParse req.body).getD (.obj []) else .obj []
  let custom_stations := dget config_params "stations" (.arr [])
  let max_stations := dget config_params "max_stations" (.num 9)
  let test_mode := dget config_params "test_mode" (.bool false)
  if !env.dbAvailable then
    { auditCreated := auditCreated, feedCalls := [], insertCalls := [], sleeps := 0,
      auditUpdates := [], httpStatus := 500, bodyStatus := "error",
      successfulStations := 0, failedStations := [], totalDepartures := 0 }
  else if !env.initOk then
    { auditCreated := auditCreated, feedCalls := [], insertCalls := [], sleeps := 0,
      auditUpdates := [], httpStatus := 500, bodyStatus := "error",
      successfulStations := 0, failedStations := [], totalDepartures := 0 }
  else
    let acc := stations.foldl (processStation env) ⟨0, [], 0, 0, [], []⟩
    let upd1 : List AuditUpdate :=
      if logTruthy env then [⟨"success", acc.successful, acc.total, none⟩] else []
    if acc.successful == 0 then
      { auditCreated := auditCreated, feedCalls := acc.feedCalls,
        insertCalls := acc.insertCalls, sleeps := acc.sleeps,
        auditUpdates := upd1 ++ (if logTruthy env then
          [⟨"failed", 0, 0, some "All stations failed to process"⟩] else []),
        httpStatus := 500, bodyStatus := "success",
        successfulStations := acc.successful, failedStations := acc.failed,
        totalDepartures := acc.total }
    else if !acc.failed.isEmpty then
      { auditCreated := auditCreated, feedCalls := acc.feedCalls,
        insertCalls := acc.insertCalls, sleeps := acc.sleeps,
        auditUpdates := upd1 ++ (if logTruthy env then
          [⟨"partial_success", acc.successful, acc.total, some (partialMsg acc.failed)⟩] else []),
        httpStatus := 206, bodyStatus := "success",
        successfulStations := acc.successful, failedStations := acc.failed,
        totalDepartures := acc.total }
    else
      { auditCreated := auditCreated, feedCalls := acc.feedCalls,
        insertCalls := acc.insertCalls, sleeps := acc.sleeps,
        auditUpdates := upd1, httpStatus := 200, bodyStatus := "success",
        successfulStations := acc.successful, failedStations := acc.failed,
        totalDepartures := acc.total }

/-- The fixed station list hard-coded at lines 1620-1630. -/
def majorStations : List String :=
  ["BE.NMBS.008812005", "BE.NMBS.008813003", "BE.NMBS.008814001",
   "BE.NMBS.008892007", "BE.NMBS.008841004", "BE.NMBS.008833001",
   "BE.NMBS.008863008", "BE.NMBS.008844404", "BE.NMBS.008821006"]

/-- `manual_data_collection` iterates exactly the hard-coded list. -/
def manual_data_collection (env : CollectEnv) (req : HttpReq) : RunReport :=
  collectRun majorStations env req

/-! Concrete inputs used by the scenario theorems below. -/

/-- The departure of the scenario in the specification, section 8. -/
def depSpec : JValue :=
  .obj [("vehicle", .str "BE.NMBS.IC538"), ("time", .str "1700000000"),
        ("delay", .str "120"), ("platform", .str "3"), ("canceled", .str "0")]

/-- The liveboard of that scenario. -/
def lbSpec : JValue :=
  mkLiveboard (.obj [("@id", .str "X"), ("name", .str "Brussels-Central")]) [depSpec]

/-- A liveboard whose only departure item is a plain string, not a mapping. -/
def lbGhost : JValue :=
  mkLiveboard (.obj [("@id", .str "S"), ("name", .str "St")]) [.str "ghost"]

/-- A liveboard whose only departure carries neither a vehicle-info object nor
a raw vehicle string. -/
def lbNoVehicle : JValue :=
  mkLiveboard (.obj [("@id", .str "S2"), ("name", .str "St2")]) [.obj [("platform", .str "4")]]

/-- A departure with only timing fields. -/
def depTimed : JValue := .obj [("time", .str "1700000000"), ("delay", .str "120")]

/-- A liveboard mixing a well-formed departure with a malformed (non-mapping)
one. -/
def lbMixed : JValue :=
  mkLiveboard (.obj [("@id", .str "U"), ("name", .str "AName")]) [depTimed, .str "bad"]

/-- The same liveboard with the malformed departure removed. -/
def lbPruned : JValue :=
  mkLiveboard (.obj [("@id", .str "U"), ("name", .str "AName")]) [depTimed]

/-- A GET request with an empty body. -/
def reqGet : HttpReq := ⟨"GET", "", "ua"⟩

/-- A collection environment whose feed always fails. -/
def envFeedErr : CollectEnv :=
  ⟨true, some 1, true, fun _ => none, fun _ => .error "timeout", fun _ => none⟩

/-- A feed payload for station A. -/
def lbStationA : JValue :=
  mkLiveboard (.obj [("@id", .str "U"), ("name", .str "AName")]) [depTimed]

/-- A collection environment where station A succeeds and every other station
fails. -/
def envMixedFeed : CollectEnv :=
  ⟨true, some 1, true, fun _ => none,
   fun s => if s = "A" then .ok lbStationA else .error "timeout", fun _ => none⟩

/-- A connection environment whose first attempt succeeds. -/
def envConnOk : ConnEnv := ⟨true, [], "srv", "db", "user", "pw", fun _ => .ok 7⟩

/-- A connection environment where every attempt fails with a reason naming
the attempted string. -/
def envConnFail : ConnEnv :=
  ⟨true, [], "srv", "db", "user", "pw", fun s => .error ("login failed for " ++ s)⟩

/-- A station record whose URI ends in a slash-separated digit segment. -/
def stDigits : JValue :=
  .obj [("@id", .str "http://irail.be/stations/NMBS/008812005"), ("name", .str "Brussels")]

/-- A station record whose URI has no trailing digit segment. -/
def stNoDigits : JValue :=
  .obj [("@id", .str "http://irail.be/stations/NMBS/abc"), ("name", .str "X")]

/-- The audit-update sequence the collector performs after its loop: an
unconditional success update (line 1816) followed by a second terminal update
when no station succeeded (failed) or some failed (partial_success). -/
def expectedAuditUpdates (r : RunReport) : List AuditUpdate :=
  ⟨"success", r.successfulStations, r.totalDepartures, none⟩
    :: (if r.successfulStations = 0 then
          [⟨"failed", 0, 0, some "All stations failed to process"⟩]
        else if r.failedStations = [] then []
        else [⟨"partial_success", r.successfulStations, r.totalDepartures,
               some (partialMsg r.failedStations)⟩])

/-! Shared lemmas. -/

/-- Unfolding `insert_departures` on a payload whose departures section is a
mapping holding a non-empty departure list: both passes run in full. -/
theorem insert_departures_run_eq (fs g : List (String × JValue)) (xs : List JValue)
    (hds : fs.lookup "departures" = some (.obj g))
    (hdep : g.lookup "departure" = some (.arr xs))
    (hne : xs ≠ []) :
    insert_departures (.obj fs) =
      .ok ⟨xs.filterMap (extractV1 (stationUriOf (.obj fs)) (stationName1Of (.obj fs)))
            ++ xs.filterMap (extractV2 (stationUriOf (.obj fs)) (stationName2Of (.obj fs))),
          2, none⟩ := by
  have hg : g ≠ [] := by
    intro h
    subst h
    simp [List.lookup] at hdep
  obtain ⟨p, g', rfl⟩ : ∃ p g', g = p :: g' := by
    cases g with
    | nil => exact absurd rfl hg
    | cons p g' => exact ⟨p, g', rfl⟩
  obtain ⟨x, xs', rfl⟩ : ∃ x xs', xs = x :: xs' := by
    cases xs with
    | nil => exact absurd rfl hne
    | cons x xs' => exact ⟨x, xs', rfl⟩
  simp [insert_departures, dget, objLookup, hds, hdep, JValue.isObj, JValue.truthy]

/-- The station context of a constructed liveboard is its station argument. -/
theorem stationCtx_mk (st : JValue) (deps : List JValue) :
    stationCtx (mkLiveboard st deps) = st := rfl

/-- The station URI of a constructed liveboard ignores the departure list. -/
theorem stationUriOf_mk (st : JValue) (deps : List JValue) :
    stationUriOf (mkLiveboard st deps)
      = (if st.isObj then dget st "@id" (.str "") else .str "") := by
  simp [stationUriOf, stationCtx_mk]

/-- The first-pass station name of a constructed liveboard ignores the
departure list. -/
theorem stationName1Of_mk (st : JValue) (deps : List JValue) :
    stationName1Of (mkLiveboard st deps)
      = (if st.isObj then dget st "name" (.str "") else .str "") := by
  simp [stationName1Of, stationCtx_mk]

/-- The second-pass station name of a constructed liveboard ignores the
departure list. -/
theorem stationName2Of_mk (st : JValue) (deps : List JValue) :
    stationName2Of (mkLiveboard st deps)
      = (if st.isObj then dget st "name" (.str "")
         else .str (if st.truthy then pyStr st else "Unknown Station")) := by
  simp [stationName2Of, stationCtx_mk]

/-- Unfolding `insert_departures` on a constructed liveboard with a non-empty
departure list. -/
theorem insert_departures_mk_eq (st : JValue) (deps : List JValue) (hne : deps ≠ []) :
    insert_departures (mkLiveboard st deps) =
      .ok ⟨deps.filterMap (extractV1 (stationUriOf (mkLiveboard st deps))
              (stationName1Of (mkLiveboard st deps)))
            ++ deps.filterMap (extractV2 (stationUriOf (mkLiveboard st deps))
              (stationName2Of (mkLiveboard st deps))),
          2, none⟩ :=
  insert_departures_run_eq _ _ deps rfl rfl hne

/-- A non-mapping departure yields no row in either pass. -/
theorem extract_none_of_not_obj (su sn d : JValue) (h : d.isObj = false) :
    extractV1 su sn d = none ∧ extractV2 su sn d = none := by
  cases d <;> simp [JValue.isObj] at h ⊢ <;> simp [extractV1, extractV2]

/-- Claim C1 counterexample: a liveboard whose departures section is a mapping
holding the non-empty departure list [.str "ghost"].  The claim says each
departure of such a payload is submitted twice; the code runs both passes
(two commits) but submits this departure zero times, because neither pass
accepts a non-mapping item. -/
theorem c1_each_departure_twice_cex :
    insert_departures lbGhost = .ok ⟨[], 2, none⟩ := rfl

/-- Claim C1 (amended): for every liveboard payload whose departures section
is a mapping containing a non-empty departure list, one call runs two full
insertion passes over that same list — after the first (simplified) pass
commits, control falls through the stray string literal at line 448 into the
second extraction-and-insert pass — so the call commits twice and every
mapping-shaped departure is submitted by the first pass, and again by the
second pass when the second-pass extraction accepts it, with the first pass
reading the raw vehicle field and the second pass reading vehicleinfo (so the
two submitted rows may differ in vehicle_uri and vehicle_name). -/
theorem c1_double_pass_amended (fs g : List (String × JValue)) (xs : List JValue)
    (hds : fs.lookup "departures" = some (.obj g))
    (hdep : g.lookup "departure" = some (.arr xs))
    (hne : xs ≠ []) :
    insert_departures (.obj fs) =
      .ok ⟨xs.filterMap (extractV1 (stationUriOf (.obj fs)) (stationName1Of (.obj fs)))
            ++ xs.filterMap (extractV2 (stationUriOf (.obj fs)) (stationName2Of (.obj fs))),
          2, none⟩
    ∧ ∀ d ∈ xs, d.isObj = true →
        extractV1 (stationUriOf (.obj fs)) (stationName1Of (.obj fs)) d
          = some (mkV1Row (stationUriOf (.obj fs)) (stationName1Of (.obj fs)) d) := by
  refine ⟨insert_departures_run_eq fs g xs hds hdep hne, ?_⟩
  intro d hd hobj
  cases d <;> first | rfl | simp [JValue.isObj] at hobj

/-- Witness for C1: the specification scenario payload runs both passes. -/
theorem c1_double_pass_witness :
    insert_departures lbSpec =
      .ok ⟨[depSpec].filterMap (extractV1 (stationUriOf lbSpec) (stationName1Of lbSpec))
            ++ [depSpec].filterMap (extractV2 (stationUriOf lbSpec) (stationName2Of lbSpec)),
          2, none⟩ :=
  (c1_double_pass_amended
    [("departures", .obj [("departure", .arr [depSpec])]),
     ("station", .obj [("@id", .str "X"), ("name", .str "Brussels-Central")])]
    [("departure", .arr [depSpec])] [depSpec] rfl rfl (by simp)).1

/-- Claim C9 counterexample: a batch with one well-formed and one malformed
departure.  The malformed item is skipped without aborting (two rows from the
well-formed one, one per pass), but the call commits twice — not exactly once
after the loop — and returns None rather than the count inserted. -/
theorem c9_commit_once_cex :
    insert_departures lbMixed =
      .ok ⟨[⟨.str "U", .str "AName", .str "", .str "", "", some 1700000000,
             some 1700000120, 120, false, "", none⟩,
            ⟨.str "U", .str "AName", .str "", .str "", "", some 1700000000,
             some 1700000120, 120, false, "", none⟩], 2, none⟩ := rfl

/-- Claim C9 (amended): a malformed (non-mapping) departure is logged and
skipped without aborting the remainder of the batch — removing it from the
payload leaves the submitted rows unchanged — but the call commits once per
insertion pass, hence exactly twice per call, and returns None, not the count
of departures inserted. -/
theorem c9_skip_malformed_amended (station : JValue) (pre post : List JValue)
    (bad : JValue) (hbad : bad.isObj = false) (hne : pre ++ post ≠ []) :
    insert_departures (mkLiveboard station (pre ++ bad :: post))
      = insert_departures (mkLiveboard station (pre ++ post))
    ∧ ∀ r, insert_departures (mkLiveboard station (pre ++ post)) = .ok r →
        r.commits = 2 ∧ r.retval = none := by
  have hibad : ∀ su sn, extractV1 su sn bad = none ∧ extractV2 su sn bad = none :=
    fun su sn => extract_none_of_not_obj su sn bad hbad
  constructor
  · rw [insert_departures_mk_eq station _ (by simp),
        insert_departures_mk_eq station _ hne,
        stationUriOf_mk, stationUriOf_mk, stationName1Of_mk, stationName1Of_mk,
        stationName2Of_mk, stationName2Of_mk]
    simp [List.filterMap_append, (hibad _ _).1, (hibad _ _).2]
  · intro r hr
    rw [insert_departures_mk_eq station _ hne] at hr
    injection hr with hr
    rw [← hr]
    exact ⟨rfl, rfl⟩

/-- Witness for C9: removing the malformed departure from the mixed payload
leaves the submitted rows unchanged. -/
theorem c9_skip_malformed_witness :
    insert_departures lbMixed = insert_departures lbPruned :=
  (c9_skip_malformed_amended (.obj [("@id", .str "U"), ("name", .str "AName")])
    [depTimed] [] (.str "bad") rfl (by simp)).1

/-- An extracted first-pass row is exactly `mkV1Row`. -/
theorem extractV1_inv (su sn d : JValue) (row : DepartureRow)
    (h : extractV1 su sn d = some row) : row = mkV1Row su sn d := by
  cases d <;> simp [extractV1] at h
  exact h.symm

/-- An extracted second-pass row is `mkV2Row` at some occupancy level. -/
theorem extractV2_inv (su sn d : JValue) (row : DepartureRow)
    (h : extractV2 su sn d = some row) :
    ∃ lvl, occLevel? (dget d "occupancy" (.obj [])) = .ok lvl
      ∧ row = mkV2Row su sn d lvl := by
  cases d with
  | obj fs =>
    unfold extractV2 at h
    cases hocc : occLevel? (dget (JValue.obj fs) "occupancy" (.obj [])) with
    | error e =>
      rw [hocc] at h
      have h2 : (none : Option DepartureRow) = some row := h
      cases h2
    | ok lvl =>
      rw [hocc] at h
      have h2 : some (mkV2Row su sn (JValue.obj fs) lvl) = some row := h
      injection h2 with h3
      exact ⟨lvl, rfl, h3.symm⟩
  | str s => simp [extractV2] at h
  | num n => simp [extractV2] at h
  | bool b => simp [extractV2] at h
  | null => simp [extractV2] at h
  | arr xs => simp [extractV2] at h

/-- The vehicle name of any extracted second-pass row follows the `or` chain
of lines 508-518. -/
theorem extractV2_vehicle_name (su sn d : JValue) (row : DepartureRow)
    (h : extractV2 su sn d = some row) : row.vehicle_name = v2VehicleName d := by
  obtain ⟨lvl, _, rfl⟩ := extractV2_inv su sn d row h
  rfl

/-- Claim C2 counterexample: a payload whose only departure has neither a
vehicle-info object nor a raw vehicle string.  Both submitted rows store the
empty string as vehicle name, not the literal Unknown. -/
theorem c2_unknown_fallback_cex :
    insert_departures lbNoVehicle =
      .ok ⟨[⟨.str "S2", .str "St2", .str "", .str "", "4", none, none, 0, false, "", none⟩,
            ⟨.str "S2", .str "St2", .str "", .str "", "4", none, none, 0, false, "", none⟩],
          2, none⟩
    ∧ JValue.str "" ≠ JValue.str "Unknown" := by
  refine ⟨rfl, ?_⟩
  intro h
  injection h with h2
  exact absurd h2 (by decide)

/-- Claim C2 (amended): in the second (latest) extraction pass, the stored
vehicle name is chosen in priority order — the vehicle-info short name if
truthy, else its name if truthy, else the raw vehicle value — and for a
departure missing both the vehicle-info object and the raw vehicle string the
stored name is exactly the empty string, not the literal Unknown. -/
theorem c2_vehicle_name_priority_amended (su sn d : JValue) (row : DepartureRow)
    (h : extractV2 su sn d = some row) :
    ((dget d "vehicleinfo" (.obj [])).isObj = true →
       ((dget (dget d "vehicleinfo" (.obj [])) "shortname" .null).truthy = true →
          row.vehicle_name = dget (dget d "vehicleinfo" (.obj [])) "shortname" .null)
       ∧ ((dget (dget d "vehicleinfo" (.obj [])) "shortname" .null).truthy = false →
            (dget (dget d "vehicleinfo" (.obj [])) "name" .null).truthy = true →
            row.vehicle_name = dget (dget d "vehicleinfo" (.obj [])) "name" .null)
       ∧ ((dget (dget d "vehicleinfo" (.obj [])) "shortname" .null).truthy = false →
            (dget (dget d "vehicleinfo" (.obj [])) "name" .null).truthy = false →
            row.vehicle_name = dget d "vehicle" (.str "")))
    ∧ ((dget d "vehicleinfo" (.obj [])).isObj = false →
         row.vehicle_name = dget d "vehicle" (.str ""))
    ∧ (objLookup d "vehicleinfo" = none → objLookup d "vehicle" = none →
         row.vehicle_name = .str "") := by
  rw [extractV2_vehicle_name su sn d row h]
  unfold v2VehicleName
  refine ⟨fun hobj => ?_, fun hobj => ?_, fun hvi hv => ?_⟩
  · refine ⟨fun hs => ?_, fun hs hn => ?_, fun hs hn => ?_⟩ <;>
      simp [hobj, hs] <;> simp [hn]
  · simp [hobj]
  · rw [show dget d "vehicleinfo" (.obj []) = .obj [] from by simp [dget, hvi],
        show dget d "vehicle" (.str "") = .str "" from by simp [dget, hv]]
    simp [dget, objLookup, JValue.isObj, JValue.truthy, List.lookup]

/-- Witness for C2: a departure with no vehicle fields at all stores the empty
string as its vehicle name. -/
theorem c2_vehicle_name_priority_witness :
    (mkV2Row (.str "") (.str "") (.obj []) none).vehicle_name = .str "" :=
  (c2_vehicle_name_priority_amended (.str "") (.str "") (.obj [])
    (mkV2Row (.str "") (.str "") (.obj []) none) rfl).2.2 rfl rfl

/-- A value that `int()` parses to a nonzero integer is Python-truthy. -/
theorem truthy_of_pyInt_nonzero (t : JValue) (n : Int)
    (hp : pyInt? t = some n) (hn : n ≠ 0) : t.truthy = true := by
  cases t with
  | num m =>
    injection hp with h
    subst h
    simp [JValue.truthy, bne_iff_ne, hn]
  | bool b =>
    cases b with
    | true => rfl
    | false =>
      injection hp with h
      exact absurd h.symm hn
  | str s =>
    by_cases he : s.isEmpty = true
    · have hs : s = "" := (String.isEmpty_iff s).mp he
      subst hs
      have h0 : pyInt? (JValue.str "") = none := rfl
      rw [h0] at hp
      cases hp
    · simp [JValue.truthy, he]
  | null => cases hp
  | arr xs => cases hp
  | obj fs => cases hp

/-- A Python-falsy value that `int()` parses must parse to zero. -/
theorem pyInt_zero_of_falsy (t : JValue) (n : Int)
    (hp : pyInt? t = some n) (ht : t.truthy = false) : n = 0 := by
  cases t with
  | num m =>
    injection hp with h
    subst h
    simpa [JValue.truthy, bne_iff_ne] using ht
  | bool b =>
    cases b with
    | true => cases ht
    | false =>
      injection hp with h
      exact h.symm
  | str s =>
    have hs : s = "" := (String.isEmpty_iff s).mp (by simpa [JValue.truthy] using ht)
    subst hs
    have h0 : pyInt? (JValue.str "") = none := rfl
    rw [h0] at hp
    cases hp
  | null => cases hp
  | arr xs => cases hp
  | obj fs => cases hp

/-- Claim C3: time normalization never raises — a record whose time field is
absent or fails integer parsing gets epoch 0 and hence null scheduled and
actual times (never a wall-clock fallback), and a record whose time parses to
a nonzero integer n with delay parsing to dv gets scheduled epoch n and actual
epoch n + dv; this holds in both extraction passes. -/
theorem c3_time_normalization (su sn : JValue) (fs : List (String × JValue))
    (r1 r2 : DepartureRow)
    (h1 : extractV1 su sn (.obj fs) = some r1)
    (h2 : extractV2 su sn (.obj fs) = some r2) :
    ((∀ t, fs.lookup "time" = some t → pyInt? t = none) →
       r1.scheduled_time = none ∧ r1.actual_time = none ∧
       r2.scheduled_time = none ∧ r2.actual_time = none)
    ∧ (∀ t n dl dv, fs.lookup "time" = some t → pyInt? t = some n → n ≠ 0 →
         fs.lookup "delay" = some dl → pyInt? dl = some dv →
         r1.scheduled_time = some n ∧ r1.actual_time = some (n + dv) ∧
         r2.scheduled_time = some n ∧ r2.actual_time = some (n + dv)) := by
  obtain rfl := extractV1_inv su sn (.obj fs) r1 h1
  obtain ⟨lvl, hocc, rfl⟩ := extractV2_inv su sn (.obj fs) r2 h2
  constructor
  · intro hno
    have hts1 : v1Timestamp (.obj fs) = 0 := by
      cases hl : fs.lookup "time" with
      | none => simp [v1Timestamp, dget, objLookup, hl, JValue.truthy]
      | some t => simp [v1Timestamp, dget, objLookup, hl, hno t hl]
    have hts2 : v2Timestamp (.obj fs) = 0 := by
      cases hl : fs.lookup "time" with
      | none => simp [v2Timestamp, dget, objLookup, hl, pyInt?]
      | some t => simp [v2Timestamp, dget, objLookup, hl, hno t hl]
    simp [mkV1Row, mkV2Row, schedOf, actualOf, hts1, hts2]
  · intro t n dl dv ht hpt hn hd hpd
    have htt : t.truthy = true := truthy_of_pyInt_nonzero t n hpt hn
    have hts1 : v1Timestamp (.obj fs) = n := by
      simp [v1Timestamp, dget, objLookup, ht, htt, hpt]
    have hdl1 : v1Delay (.obj fs) = dv := by
      by_cases hdt : dl.truthy = true
      · simp [v1Delay, dget, objLookup, hd, hdt, hpd]
      · have hdf : dl.truthy = false := by revert hdt; cases dl.truthy <;> simp
        have hdz : dv = 0 := pyInt_zero_of_falsy dl dv hpd hdf
        simp [v1Delay, dget, objLookup, hd, hdf, hdz]
    have hts2 : v2Timestamp (.obj fs) = n := by
      simp [v2Timestamp, dget, objLookup, ht, hpt]
    have hdl2 : v2Delay (.obj fs) = dv := by
      simp [v2Delay, dget, objLookup, hd, hpd]
    simp [mkV1Row, mkV2Row, schedOf, actualOf, hts1, hts2, hdl1, hdl2, hn]

/-- Witness for C3: the timed departure normalizes to epoch 1700000000 and
actual epoch 1700000000 + 120 in both passes. -/
theorem c3_time_normalization_witness :
    (mkV1Row (.str "U") (.str "N") depTimed).scheduled_time = some 1700000000
    ∧ (mkV1Row (.str "U") (.str "N") depTimed).actual_time = some (1700000000 + 120)
    ∧ (mkV2Row (.str "U") (.str "N") depTimed none).scheduled_time = some 1700000000
    ∧ (mkV2Row (.str "U") (.str "N") depTimed none).actual_time = some (1700000000 + 120) :=
  (c3_time_normalization (.str "U") (.str "N")
      [("time", .str "1700000000"), ("delay", .str "120")]
      (mkV1Row (.str "U") (.str "N") depTimed)
      (mkV2Row (.str "U") (.str "N") depTimed none) rfl rfl).2
    (.str "1700000000") 1700000000 (.str "120") 120 rfl (by rfl) (by norm_num) rfl (by rfl)

/-- `takeWhile` passes over a prefix whose elements all satisfy the
predicate. -/
theorem takeWhile_append_all {α} (p : α → Bool) (l1 l2 : List α)
    (h : ∀ a ∈ l1, p a = true) : (l1 ++ l2).takeWhile p = l1 ++ l2.takeWhile p := by
  induction l1 with
  | nil => simp
  | cons a l1 ih =>
    have ha : p a = true := h a (by simp)
    simp only [List.cons_append, List.takeWhile_cons, ha, if_true]
    rw [ih (fun b hb => h b (by simp [hb]))]

/-- The identifier extracted from a URI ending in a slash followed by a
non-empty digit run is exactly that digit run. -/
theorem extractStationId_slash_digits (pd dd : List Char) (hne : dd ≠ [])
    (hdig : ∀ c ∈ dd, c.isDigit = true) :
    extractStationId (String.mk (pd ++ '/' :: dd)) = String.mk dd := by
  unfold extractStationId digitSuffix
  have hdata : (String.mk (pd ++ '/' :: dd)).data = pd ++ '/' :: dd := rfl
  rw [hdata]
  have h1 : (pd ++ '/' :: dd).reverse = dd.reverse ++ '/' :: pd.reverse := by
    simp [List.reverse_append]
  rw [h1]
  have h2 : (dd.reverse ++ '/' :: pd.reverse).takeWhile Char.isDigit = dd.reverse := by
    rw [takeWhile_append_all Char.isDigit dd.reverse ('/' :: pd.reverse)
          (fun c hc => hdig c (List.mem_reverse.mp hc))]
    simp [List.takeWhile_cons, show Char.isDigit '/' = false from by decide]
  rw [h2, List.reverse_reverse]
  have hde : dd.isEmpty = false := by
    cases dd with
    | nil => exact absurd rfl hne
    | cons c cs => rfl
  simp only [hde, Bool.false_eq_true, if_false]
  have hlen : (pd ++ '/' :: dd).length - dd.length = pd.length + 1 := by
    simp only [List.length_append, List.length_cons]
    omega
  have h3 : (pd ++ '/' :: dd).take (pd.length + 1) = pd ++ ['/'] := by
    have hsplit : pd ++ '/' :: dd = (pd ++ ['/']) ++ dd := by simp
    rw [hsplit]
    have hl : pd.length + 1 = (pd ++ ['/']).length := by simp
    rw [hl, List.take_left]
  rw [hlen, h3, List.getLast?_concat]
  simp

/-- The id stored for a record whose `@id` is a string is the extracted
trailing-digit identifier (empty when the URI has no such segment). -/
theorem processStationRecord_str_id (fs : List (String × JValue)) (u : String)
    (row : StationRow) (hu : fs.lookup "@id" = some (.str u))
    (hok : processStationRecord (.obj fs) = .ok row) : row.id = extractStationId u := by
  unfold processStationRecord at hok
  have he : dget (.obj fs) "@id" (.str "") = .str u := by simp [dget, objLookup, hu]
  rw [he] at hok
  by_cases ht : (JValue.str u).truthy = true
  · simp only [ht, if_true] at hok
    have h2 : Except.ok (stationRowOf (.obj fs) (.str u) (extractStationId u))
        = Except.ok row := hok
    injection h2 with h3
    rw [← h3]
    rfl
  · have hf : (JValue.str u).truthy = false := by
      revert ht; cases (JValue.str u).truthy <;> simp
    simp only [hf, Bool.false_eq_true, if_false] at hok
    have hu0 : u = "" := (String.isEmpty_iff u).mp (by simpa [JValue.truthy] using hf)
    subst hu0
    have h2 : Except.ok (stationRowOf (.obj fs) (.str "") "") = Except.ok row := hok
    injection h2 with h3
    rw [← h3]
    rfl

/-- Every record that `insert_stations` accepts contributes exactly one
submitted row: no record is dropped. -/
theorem insert_stations_length (stations : List JValue) (rows : List StationRow)
    (h : insert_stations stations = .ok rows) : rows.length = stations.length := by
  induction stations generalizing rows with
  | nil =>
    have h2 : Except.ok ([] : List StationRow) = .ok rows := h
    injection h2 with h3
    rw [← h3]
    rfl
  | cons st rest ih =>
    unfold insert_stations at h
    cases hp : processStationRecord st with
    | error e =>
      rw [hp] at h
      have h2 : (Except.error e : Except String (List StationRow)) = .ok rows := h
      cases h2
    | ok row =>
      rw [hp] at h
      cases hr : insert_stations rest with
      | error e =>
        rw [hr] at h
        have h2 : (Except.error e : Except String (List StationRow)) = .ok rows := h
        cases h2
      | ok rows' =>
        rw [hr] at h
        have h2 : Except.ok (row :: rows') = Except.ok rows := h
        injection h2 with h3
        rw [← h3]
        simp [ih rows' hr]

/-- Claim C7 counterexample: a station record whose URI has no trailing digit
segment is not rejected — the MERGE still receives one row for it, carrying
the empty identifier. -/
theorem c7_rejection_cex :
    insert_stations [stNoDigits] =
      .ok [⟨"", .str "X", .str "", .null, .null,
            .str "http://irail.be/stations/NMBS/abc"⟩] := rfl

/-- Claim C7 (amended): the stored identifier equals the trailing digit
segment of the source URI when the URI ends in a slash followed by digits;
when the URI has no such segment the identifier is the empty string and the
record is still submitted — `insert_stations` submits exactly one row per
record, rejecting none. -/
theorem c7_station_id_amended :
    (∀ (stations : List JValue) (rows : List StationRow),
       insert_stations stations = .ok rows → rows.length = stations.length)
    ∧ (∀ (fs : List (String × JValue)) (pd dd : List Char) (row : StationRow),
         dd ≠ [] → (∀ c ∈ dd, c.isDigit = true) →
         fs.lookup "@id" = some (.str (String.mk (pd ++ '/' :: dd))) →
         processStationRecord (.obj fs) = .ok row → row.id = String.mk dd)
    ∧ (∀ (fs : List (String × JValue)) (u : String) (row : StationRow),
         fs.lookup "@id" = some (.str u) → extractStationId u = "" →
         processStationRecord (.obj fs) = .ok row → row.id = "") := by
  refine ⟨insert_stations_length,
    fun fs pd dd row hne hdig hu hok => ?_,
    fun fs u row hu hz hok => ?_⟩
  · rw [processStationRecord_str_id fs _ row hu hok]
    exact extractStationId_slash_digits pd dd hne hdig
  · rw [processStationRecord_str_id fs u row hu hok, hz]

/-- Witness for C7: the Brussels station record stores identifier 008812005,
the trailing digit segment of its URI. -/
theorem c7_station_id_witness :
    (⟨"008812005", .str "Brussels", .str "", .null, .null,
      .str "http://irail.be/stations/NMBS/008812005"⟩ : StationRow).id
      = String.mk "008812005".data :=
  c7_station_id_amended.2.1
    [("@id", .str "http://irail.be/stations/NMBS/008812005"), ("name", .str "Brussels")]
    "http://irail.be/stations/NMBS".data "008812005".data
    ⟨"008812005", .str "Brussels", .str "", .null, .null,
     .str "http://irail.be/stations/NMBS/008812005"⟩
    (by decide) (by decide) rfl rfl

/-- The attempt loop stops at the first strategy that yields a handle. -/
theorem connAttemptLoop_first_ok (env : ConnEnv) (pref : List String) (a : String)
    (rest : List String) (hdl : Nat)
    (hpref : ∀ b ∈ pref, ∃ e, env.connect b = .error e)
    (ha : env.connect a = .ok hdl) :
    ∀ (i : Nat) (errors tried : List String),
      connAttemptLoop env (pref ++ a :: rest) i errors tried = (.ok hdl, tried ++ (pref ++ [a])) := by
  induction pref with
  | nil =>
    intro i errors tried
    simp [connAttemptLoop, ha]
  | cons b pref ih =>
    intro i errors tried
    obtain ⟨e, he⟩ := hpref b (by simp)
    simp only [List.cons_append, connAttemptLoop, he, List.append_eq]
    rw [ih (fun c hc => hpref c (by simp [hc]))]
    simp

/-- When every strategy fails, the loop tries them all and aggregates one
indexed error message per attempt. -/
theorem connAttemptLoop_all_fail (env : ConnEnv) (l : List String)
    (hall : ∀ b ∈ l, ∃ e, env.connect b = .error e) :
    ∀ (i : Nat) (errors tried : List String),
      connAttemptLoop env l i errors tried
        = (.error (connFailMsg (errors ++ enumMsgs env i l)), tried ++ l) := by
  induction l with
  | nil =>
    intro i errors tried
    simp [connAttemptLoop, enumMsgs]
  | cons a rest ih =>
    intro i errors tried
    obtain ⟨e, he⟩ := hall a (by simp)
    simp only [connAttemptLoop, he]
    rw [ih (fun c hc => hall c (by simp [hc]))]
    simp [enumMsgs, he, List.append_assoc]

/-- Claim C8: the connection resolver returns a handle as soon as one
strategy in the ordered candidate list succeeds (trying exactly the
strategies up to and including the first success), and when every strategy
fails it fails only after attempting all of them, raising an error whose
message enumerates one entry per attempted strategy, each carrying that
attempt number and its individual failure reason. -/
theorem c8_connection_resolver (cs : String) (env : ConnEnv)
    (hav : env.pyodbcAvailable = true) :
    (∀ (pref : List String) (a : String) (rest : List String) (hdl : Nat),
       connectionAttempts cs env = pref ++ a :: rest →
       (∀ b ∈ pref, ∃ e, env.connect b = .error e) →
       env.connect a = .ok hdl →
       get_connection cs env = (.ok hdl, pref ++ [a]))
    ∧ ((∀ b ∈ connectionAttempts cs env, ∃ e, env.connect b = .error e) →
       get_connection cs env =
         (.error (connFailMsg (enumMsgs env 0 (connectionAttempts cs env))),
          connectionAttempts cs env)) := by
  constructor
  · intro pref a rest hdl hsplit hpref ha
    unfold get_connection
    simp only [hav, if_true]
    rw [hsplit, connAttemptLoop_first_ok env pref a rest hdl hpref ha 0 [] []]
    simp
  · intro hall
    unfold get_connection
    simp only [hav, if_true]
    rw [connAttemptLoop_all_fail env _ hall 0 [] []]
    simp

/-- Witness for C8: a first-attempt success returns handle 7 having tried only
the first candidate, and an all-fail environment returns the aggregated
enumerated error having tried every candidate. -/
theorem c8_connection_resolver_witness :
    get_connection "X" envConnOk = (.ok 7, ["X"])
    ∧ get_connection "X" envConnFail =
        (.error (connFailMsg (enumMsgs envConnFail 0 (connectionAttempts "X" envConnFail))),
         connectionAttempts "X" envConnFail) :=
  ⟨(c8_connection_resolver "X" envConnOk rfl).1 [] "X"
      (List.drop 1 (connectionAttempts "X" envConnOk)) 7 rfl (by simp) rfl,
   (c8_connection_resolver "X" envConnFail rfl).2
      (fun b _ => ⟨"login failed for " ++ b, rfl⟩)⟩

/-- A truthy log id exists. -/
theorem logTruthy_isSome (env : CollectEnv) (h : logTruthy env = true) :
    env.logId.isSome = true := by
  cases hl : env.logId with
  | none =>
    unfold logTruthy at h
    rw [hl] at h
    cases h
  | some n => rfl

/-- One loop iteration sleeps exactly when the station iteration does not
raise: the DB-error and no-data paths sleep, the exception path does not. -/
theorem processStation_sleeps (env : CollectEnv) (acc : LoopAcc) (sid : String) :
    (processStation env acc sid).sleeps
      = acc.sleeps + (if stationRaises env sid then 0 else 1) := by
  unfold processStation stationRaises
  cases hfeed : env.feed sid with
  | error e => simp
  | ok lb =>
    by_cases hobj : lb.isObj = true
    · simp only [hobj, Bool.not_true, Bool.false_eq_true, if_false]
      cases hlen : pyLen (departuresOf lb) with
      | error e => simp
      | ok n =>
        by_cases htr : (departuresOf lb).truthy = true
        · simp only [htr, if_true]
          cases hdb : env.dbInsertFails sid with
          | some e => simp
          | none => cases hins : insert_departures lb <;> simp
        · have hf : (departuresOf lb).truthy = false := by
            revert htr; cases (departuresOf lb).truthy <;> simp
          simp [hf]
    · have hf : lb.isObj = false := by revert hobj; cases lb.isObj <;> simp
      simp [hf]

/-- The loop sleeps once per station whose iteration does not raise. -/
theorem collectLoop_sleeps (env : CollectEnv) (stations : List String) :
    ∀ acc : LoopAcc,
      (stations.foldl (processStation env) acc).sleeps
        = acc.sleeps + (stations.filter (fun s => !stationRaises env s)).length := by
  induction stations with
  | nil => intro acc; simp
  | cons s rest ih =>
    intro acc
    simp only [List.foldl_cons]
    rw [ih, processStation_sleeps]
    by_cases hr : stationRaises env s = true
    · simp [List.filter_cons, hr]
    · have hf : stationRaises env s = false := by
        revert hr; cases stationRaises env s <;> simp
      simp [List.filter_cons, hf]
      omega

/-- Every loop iteration records its feed call, on every path. -/
theorem processStation_feedCalls (env : CollectEnv) (acc : LoopAcc) (sid : String) :
    (processStation env acc sid).feedCalls = acc.feedCalls ++ [sid] := by
  unfold processStation
  cases hfeed : env.feed sid with
  | error e => simp
  | ok lb =>
    by_cases hobj : lb.isObj = true
    · simp only [hobj, Bool.not_true, Bool.false_eq_true, if_false]
      cases hlen : pyLen (departuresOf lb) with
      | error e => simp
      | ok n =>
        by_cases htr : (departuresOf lb).truthy = true
        · simp only [htr, if_true]
          cases hdb : env.dbInsertFails sid with
          | some e => simp
          | none => cases hins : insert_departures lb <;> simp
        · have hf : (departuresOf lb).truthy = false := by
            revert htr; cases (departuresOf lb).truthy <;> simp
          simp [hf]
    · have hf : lb.isObj = false := by revert hobj; cases lb.isObj <;> simp
      simp [hf]

/-- The loop issues exactly one feed call per configured station, in order. -/
theorem collectLoop_feedCalls (env : CollectEnv) (stations : List String) :
    ∀ acc : LoopAcc,
      (stations.foldl (processStation env) acc).feedCalls
        = acc.feedCalls ++ stations := by
  induction stations with
  | nil => intro acc; simp
  | cons s rest ih =>
    intro acc
    simp only [List.foldl_cons]
    rw [ih, processStation_feedCalls]
    simp

/-- The feed calls a run performs: the full configured list when the database
is available and table creation succeeds, nothing otherwise — in both cases
independent of the request. -/
theorem collectRun_feedCalls (stations : List String) (env : CollectEnv) (req : HttpReq) :
    (collectRun stations env req).feedCalls
      = if env.dbAvailable && env.initOk then stations else [] := by
  unfold collectRun
  by_cases hdb : env.dbAvailable = true
  · by_cases hio : env.initOk = true
    · simp only [hdb, hio, Bool.not_true, Bool.false_eq_true, if_false, Bool.and_self, if_true]
      split
      · simp [collectLoop_feedCalls env stations]
      · split <;> simp [collectLoop_feedCalls env stations]
    · have h2 : env.initOk = false := by revert hio; cases env.initOk <;> simp
      simp [hdb, h2]
  · have h2 : env.dbAvailable = false := by revert hdb; cases env.dbAvailable <;> simp
    simp [h2]

/-- Claim C4 counterexample: a run over zero stations makes no feed calls,
yet the code takes the all-failed branch — the audit row is updated with
success and then failed, and the HTTP response is 500, not a success
response. -/
theorem c4_zero_stations_cex :
    (collectRun [] envFeedErr reqGet).feedCalls = []
    ∧ (collectRun [] envFeedErr reqGet).httpStatus = 500
    ∧ (collectRun [] envFeedErr reqGet).auditUpdates
        = [⟨"success", 0, 0, none⟩, ⟨"failed", 0, 0, some "All stations failed to process"⟩] :=
  ⟨rfl, rfl, rfl⟩

/-- Claim C4 (amended): a collection run over zero configured stations
performs no feed calls and no departure inserts and reports zero counts, but
because zero stations succeeded it is classified as all-failed: the audit row
is updated with success (0/0) and then updated again with failed, and the
HTTP response is 500 — although the status field inside the response body
still says success. -/
theorem c4_zero_stations_amended (env : CollectEnv) (req : HttpReq)
    (hdb : env.dbAvailable = true) (hinit : env.initOk = true)
    (hlog : logTruthy env = true) :
    (collectRun [] env req).feedCalls = []
    ∧ (collectRun [] env req).insertCalls = []
    ∧ (collectRun [] env req).successfulStations = 0
    ∧ (collectRun [] env req).totalDepartures = 0
    ∧ (collectRun [] env req).httpStatus = 500
    ∧ (collectRun [] env req).bodyStatus = "success"
    ∧ (collectRun [] env req).auditUpdates
        = [⟨"success", 0, 0, none⟩, ⟨"failed", 0, 0, some "All stations failed to process"⟩] := by
  unfold collectRun
  simp [hdb, hinit, hlog]

/-- Witness for C4: a concrete zero-station run returns HTTP 500 with body
status success. -/
theorem c4_zero_stations_witness :
    (collectRun [] envFeedErr reqGet).httpStatus = 500
    ∧ (collectRun [] envFeedErr reqGet).bodyStatus = "success" :=
  ⟨(c4_zero_stations_amended envFeedErr reqGet rfl rfl rfl).2.2.2.2.1,
   (c4_zero_stations_amended envFeedErr reqGet rfl rfl rfl).2.2.2.2.2.1⟩

/-- Claim C5 counterexample: a single-station run whose feed call raises.
The station is recorded as failed, but the inter-request sleep is skipped —
the claim requires one sleep per station regardless of outcome. -/
theorem c5_sleep_on_failure_cex :
    (collectRun ["X"] envFeedErr reqGet).sleeps = 0
    ∧ (collectRun ["X"] envFeedErr reqGet).failedStations = ["X (API error)"] :=
  ⟨rfl, rfl⟩

/-- Claim C5 (amended): in every collection run the configured 400 ms sleep
runs once per station whose iteration completes without raising (including
the DB-error and no-data paths), and is skipped for every station whose
iteration raises — the sleep sits inside the try block, before the exception
handler that continues to the next station. -/
theorem c5_sleep_amended (stations : List String) (env : CollectEnv) (req : HttpReq)
    (hdb : env.dbAvailable = true) (hinit : env.initOk = true) :
    (collectRun stations env req).sleeps
      = (stations.filter (fun s => !stationRaises env s)).length := by
  unfold collectRun
  simp only [hdb, hinit, Bool.not_true, Bool.false_eq_true, if_false]
  split
  · simp [collectLoop_sleeps env stations]
  · split <;> simp [collectLoop_sleeps env stations]

/-- Witness for C5: in a run where station A succeeds and station B raises,
exactly the non-raising stations are slept for. -/
theorem c5_sleep_witness :
    (collectRun ["A", "B"] envMixedFeed reqGet).sleeps
      = ((["A", "B"]).filter (fun s => !stationRaises envMixedFeed s)).length :=
  c5_sleep_amended ["A", "B"] envMixedFeed reqGet rfl rfl

/-- Claim C6 counterexample: a run with one successful and one failed station
updates the audit row twice — first with success, then with
partial_success — not exactly once. -/
theorem c6_single_update_cex :
    (collectRun ["A", "B"] envMixedFeed reqGet).auditUpdates
      = [⟨"success", 1, 1, none⟩,
         ⟨"partial_success", 1, 1, some "1 stations failed: B (API error)"⟩] := rfl

/-- Claim C6 (amended): when the audit row is created (status started) and
the run reaches its loop, the row is updated once with success uncondition-
ally and then a second time — with failed when no station succeeded, or with
partial_success when some stations failed — so a run with failures receives
two updates, not one; when table creation fails after the row was created,
the row is never updated at all; and the observed terminal statuses are
success, partial_success and failed. -/
theorem c6_audit_updates_amended (stations : List String) (env : CollectEnv)
    (req : HttpReq) (hdb : env.dbAvailable = true) (hlog : logTruthy env = true) :
    (collectRun stations env req).auditCreated = true
    ∧ (env.initOk = false → (collectRun stations env req).auditUpdates = [])
    ∧ (env.initOk = true →
        (collectRun stations env req).auditUpdates
          = expectedAuditUpdates (collectRun stations env req)) := by
  have hsome : env.logId.isSome = true := logTruthy_isSome env hlog
  refine ⟨?_, fun hio => ?_, fun hio => ?_⟩
  · unfold collectRun
    by_cases hio : env.initOk = true
    · simp only [hdb, hio, Bool.not_true, Bool.false_eq_true, if_false]
      split
      · simp [hdb, hsome]
      · split <;> simp [hdb, hsome]
    · have h2 : env.initOk = false := by revert hio; cases env.initOk <;> simp
      simp [hdb, h2, hsome]
  · unfold collectRun
    simp [hdb, hio]
  · unfold collectRun expectedAuditUpdates
    simp only [hdb, hio, Bool.not_true, Bool.false_eq_true, if_false, hlog, if_true]
    split
    · simp_all [beq_iff_eq, hlog]
    · split <;> simp_all [beq_iff_eq, hlog, List.isEmpty_iff]

/-- Witness for C6: the mixed run receives the success update followed by the
partial_success update. -/
theorem c6_audit_updates_witness :
    (collectRun ["A", "B"] envMixedFeed reqGet).auditUpdates
      = expectedAuditUpdates (collectRun ["A", "B"] envMixedFeed reqGet) :=
  (c6_audit_updates_amended ["A", "B"] envMixedFeed reqGet rfl rfl).2.2 rfl

/-- Claim C10: the set and order of stations processed by a manually
triggered collection run is independent of the request body — any two
requests produce the same feed-call sequence, which (whenever the run reaches
its loop) is exactly the fixed 9-entry hard-coded station list; the parsed
stations / max_stations / test_mode overrides never influence it. -/
theorem c10_station_list_independent :
    (∀ (env : CollectEnv) (m1 b1 u1 m2 b2 u2 : String),
       (manual_data_collection env ⟨m1, b1, u1⟩).feedCalls
         = (manual_data_collection env ⟨m2, b2, u2⟩).feedCalls)
    ∧ (∀ (env : CollectEnv) (req : HttpReq),
       env.dbAvailable = true → env.initOk = true →
       (manual_data_collection env req).feedCalls = majorStations)
    ∧ majorStations.length = 9 := by
  refine ⟨fun env m1 b1 u1 m2 b2 u2 => ?_, fun env req hdb hio => ?_, rfl⟩
  · unfold manual_data_collection
    rw [collectRun_feedCalls, collectRun_feedCalls]
  · unfold manual_data_collection
    rw [collectRun_feedCalls]
    simp [hdb, hio]

/-- Witness for C10: a concrete run with the all-failing feed still iterates
exactly the nine hard-coded stations. -/
theorem c10_station_list_independent_witness :
    (manual_data_collection envFeedErr reqGet).feedCalls = majorStations :=
  c10_station_list_independent.2.1 envFeedErr reqGet rfl rfl
